import Mathlib

/-!
Verification of the Identity Service dispatch layer
(`implementations/rust/ockam/ockam_api/src/identity/identity_service.rs`).

The service actor is embedded shallowly: the surrounding crates
(`ockam_core::api` codec, `ockam_identity`, the vault, the CLI state store)
are abstracted into an environment `Env` of oracle functions, one per
external call the service makes; byte buffers are `List Nat`.  The functions
`handleRequest` and `onRequest` below are direct translations of
`IdentityService::handle_request` and `IdentityService::on_request`, with
Rust's `?` operator rendered as an explicit `match` on `Except`.
-/

namespace OckamIdentity

/-- HTTP-like method enumeration of the wire protocol
(`ockam_core::api::Method`). -/
inductive Method where
  | get
  | post
  | put
  | patch
  | delete
deriving DecidableEq, Repr

/-- Response status enumeration of the wire protocol
(`ockam_core::api::Status`). -/
inductive Status where
  | ok
  | badRequest
  | notFound
  | methodNotAllowed
  | internalServerError
  | notImplemented
deriving DecidableEq, Repr

/-- A decoded request header: id, optional method, path, and the body
presence flag (`ockam_core::api::Request`). -/
structure Request where
  id : Nat
  method : Option Method
  path : String
  has_body : Bool
deriving DecidableEq, Repr

/-- The error body `ockam_core::api::Error`: path, optional method,
message. -/
structure ErrorBody where
  path : String
  method : Option Method
  message : String
deriving DecidableEq, Repr

/-- Result of comparing two identity change histories
(`ockam_identity::change_history::IdentityHistoryComparison`). -/
inductive IdentityHistoryComparison where
  | equal
  | newer
  | older
  | conflict
deriving DecidableEq, Repr

/-- The possible response bodies the service encodes. -/
inductive ResponseBody where
  | error (e : ErrorBody)
  | create (exported : List Nat) (identifier : String)
  | validate (identifier : String)
  | signature (sig : List Nat)
  | verify (verified : Bool)
  | comparison (c : IdentityHistoryComparison)
deriving DecidableEq, Repr

/-- A response as it is encoded onto the wire: id, status, body. -/
structure Response where
  id : Nat
  status : Status
  body : ResponseBody
deriving DecidableEq, Repr

/-- The actor state: a detached context, the default vault handle, and the
CLI state store reference.  The handles are abstract (`Nat`). -/
structure IdentityService where
  ctx : Nat
  vault : Nat
  cli_state : Nat
deriving DecidableEq, Repr

/-- A stored named identity from the CLI state
(`identity.config.change_history` handle and `identity.config.identifier`). -/
structure StoredIdentity where
  change_history : Nat
  identifier : String
deriving DecidableEq, Repr

/-- Payload of `POST /actions/validate_identity_change_history`. -/
structure ValidateIdentityChangeHistoryRequest where
  identity : List Nat
deriving DecidableEq, Repr

/-- Payload of `POST /actions/create_signature`. -/
structure CreateSignatureRequest where
  identity : List Nat
  data : List Nat
  vault_name : Option String
deriving DecidableEq, Repr

/-- Payload of `POST /actions/verify_signature`. -/
structure VerifySignatureRequest where
  signer_identity : List Nat
  signature : List Nat
  data : List Nat
deriving DecidableEq, Repr

/-- Payload of `POST /actions/compare_identity_change_history`. -/
structure CompareIdentityChangeHistoryRequest where
  current_identity : List Nat
  known_identity : List Nat
deriving DecidableEq, Repr

/-- Oracles for every external call the service makes.  Each field stands
for one operation of a collaborator crate; fallible Rust calls become
`Except String` results (the `String` is the error's textual description,
as produced by `err.to_string()`). -/
structure Env where
  decodeRequest : List Nat → Except String Request
  freshId : Nat
  identitiesGet : Nat → String → Except String StoredIdentity
  exportHistory : Nat → Except String (List Nat)
  createIdentity : Nat → Nat → Except String Nat
  identityIdentifier : Nat → String
  identityExport : Nat → Except String (List Nat)
  importIdentity : Nat → List Nat → Nat → Except String Nat
  vaultsGet : Nat → String → Except String Nat
  vaultLoad : Nat → Except String Nat
  createSignature : Nat → List Nat → Except String (List Nat)
  importPublicIdentity : List Nat → Nat → Except String Nat
  verifySignature : Nat → List Nat → List Nat → Nat → Except String Bool
  compare : Nat → Nat → IdentityHistoryComparison
  decodeValidate : List Nat → Except String ValidateIdentityChangeHistoryRequest
  decodeCreateSignature : List Nat → Except String CreateSignatureRequest
  decodeVerify : List Nat → Except String VerifySignatureRequest
  decodeCompare : List Nat → Except String CompareIdentityChangeHistoryRequest

/-- Splits a character list on the separator character, keeping empty
segments (mirrors Rust's `str::split`). -/
def splitOnSlash : List Char → List Char → List (List Char)
  | [], acc => [acc.reverse]
  | c :: cs, acc =>
    if c = '/' then acc.reverse :: splitOnSlash cs []
    else splitOnSlash cs (c :: acc)

/-- Modelled from the spec: the path segmentation used by
`Request::path_segments` lives in the repository's `ockam_core` crate, which
is not among the sources here.  Per the spec's path grammar a path is a
sequence of segments separated by the slash character, and a leading slash
only introduces the segments, so the path "/actions/x" has segments
["actions", "x"] and the path "/" has the single empty segment [""]. -/
def pathSegments (p : String) : List String :=
  let cs :=
    match p.toList with
    | '/' :: rest => rest
    | cs => cs
  (splitOnSlash cs []).map (fun l => String.mk l)

/-- `IdentityService::response_for_bad_request`: a BadRequest response
carrying the request's id, path and method. -/
def response_for_bad_request (req : Request) (msg : String) : Response :=
  { id := req.id
    status := Status.badRequest
    body := ResponseBody.error { path := req.path, method := req.method, message := msg } }

/-- `IdentityService::ok_response`: an Ok response carrying the request's
id. -/
def ok_response (req : Request) (body : ResponseBody) : Response :=
  { id := req.id, status := Status.ok, body := body }

/-- `IdentityService::response_with_error`: an error response; when no
request is available the path is empty and the id is freshly generated
(`Id::fresh()`), otherwise both come from the request. -/
def response_with_error (env : Env) (req : Option Request) (status : Status)
    (msg : String) : Response :=
  match req with
  | none =>
    { id := env.freshId
      status := status
      body := ResponseBody.error { path := "", method := none, message := msg } }
  | some r =>
    { id := r.id
      status := status
      body := ResponseBody.error { path := r.path, method := none, message := msg } }

/-- The `GET /{identity_name}` arm: look the name up in the CLI state, then
export its change history. -/
def getNamedIdentityResult (env : Env) (s : IdentityService) (req : Request)
    (identity_name : String) : Except String (Response × IdentityService) :=
  match env.identitiesGet s.cli_state identity_name with
  | Except.error e => Except.error e
  | Except.ok identity =>
    match env.exportHistory identity.change_history with
    | Except.error e => Except.error e
    | Except.ok exported =>
      Except.ok (ok_response req (ResponseBody.create exported identity.identifier), s)

/-- The `POST /` arm: create a fresh identity under the service's default
vault and export it. -/
def createIdentityResult (env : Env) (s : IdentityService) (req : Request) :
    Except String (Response × IdentityService) :=
  match env.createIdentity s.ctx s.vault with
  | Except.error e => Except.error e
  | Except.ok identity =>
    match env.identityExport identity with
    | Except.error e => Except.error e
    | Except.ok exported =>
      Except.ok
        (ok_response req (ResponseBody.create exported (env.identityIdentifier identity)), s)

/-- The identity import of the `create_signature` arm: under the default
vault when no vault name is supplied, otherwise under the named vault
resolved through the CLI state. -/
def importForSignature (env : Env) (s : IdentityService)
    (args : CreateSignatureRequest) : Except String Nat :=
  match args.vault_name with
  | none => env.importIdentity s.ctx args.identity s.vault
  | some vault_name =>
    match env.vaultsGet s.cli_state vault_name with
    | Except.error e => Except.error e
    | Except.ok vaultSt =>
      match env.vaultLoad vaultSt with
      | Except.error e => Except.error e
      | Except.ok vault => env.importIdentity s.ctx args.identity vault

/-- Direct translation of `IdentityService::handle_request`.  The service
state is threaded through explicitly (the Rust method takes `&mut self`);
an `Except.error` is a Rust `Err` propagated by `?`. -/
def handleRequest (env : Env) (s : IdentityService) (req : Request) (data : List Nat) :
    Except String (Response × IdentityService) :=
  match req.method with
  | none => Except.ok (response_for_bad_request req "empty method", s)
  | some Method.get =>
    match pathSegments req.path with
    | [identity_name] => getNamedIdentityResult env s req identity_name
    | _ => Except.ok (response_for_bad_request req "unknown path", s)
  | some Method.post =>
    match pathSegments req.path with
    | [""] => createIdentityResult env s req
    | ["actions", "validate_identity_change_history"] =>
      if !req.has_body then Except.ok (response_for_bad_request req "empty body", s)
      else
        match env.decodeValidate data with
        | Except.error e => Except.error e
        | Except.ok args =>
          match env.importIdentity s.ctx args.identity s.vault with
          | Except.error e => Except.error e
          | Except.ok identity =>
            Except.ok
              (ok_response req (ResponseBody.validate (env.identityIdentifier identity)), s)
    | ["actions", "create_signature"] =>
      if !req.has_body then Except.ok (response_for_bad_request req "empty body", s)
      else
        match env.decodeCreateSignature data with
        | Except.error e => Except.error e
        | Except.ok args =>
          match importForSignature env s args with
          | Except.error e => Except.error e
          | Except.ok identity =>
            match env.createSignature identity args.data with
            | Except.error e => Except.error e
            | Except.ok signature =>
              Except.ok (ok_response req (ResponseBody.signature signature), s)
    | ["actions", "verify_signature"] =>
      if !req.has_body then Except.ok (response_for_bad_request req "empty body", s)
      else
        match env.decodeVerify data with
        | Except.error e => Except.error e
        | Except.ok args =>
          match env.importPublicIdentity args.signer_identity s.vault with
          | Except.error e => Except.error e
          | Except.ok peer_identity =>
            match env.verifySignature peer_identity args.signature args.data s.vault with
            | Except.error e => Except.error e
            | Except.ok verified =>
              Except.ok (ok_response req (ResponseBody.verify verified), s)
    | ["actions", "compare_identity_change_history"] =>
      if !req.has_body then Except.ok (response_for_bad_request req "empty body", s)
      else
        match env.decodeCompare data with
        | Except.error e => Except.error e
        | Except.ok args =>
          match env.importPublicIdentity args.current_identity s.vault with
          | Except.error e => Except.error e
          | Except.ok current_identity =>
            if args.known_identity.isEmpty then
              Except.ok
                (ok_response req (ResponseBody.comparison IdentityHistoryComparison.newer), s)
            else
              match env.importPublicIdentity args.known_identity s.vault with
              | Except.error e => Except.error e
              | Except.ok known_identity =>
                Except.ok
                  (ok_response req
                    (ResponseBody.comparison (env.compare current_identity known_identity)), s)
    | _ => Except.ok (response_for_bad_request req "unknown path", s)
  | some Method.put => Except.ok (response_for_bad_request req "unknown method", s)
  | some Method.patch => Except.ok (response_for_bad_request req "unknown method", s)
  | some Method.delete => Except.ok (response_for_bad_request req "unknown method", s)

/-- Direct translation of `IdentityService::on_request`: decode the header;
on failure answer BadRequest with a fresh id; otherwise dispatch and map a
propagated error to InternalServerError carrying its textual description. -/
def onRequest (env : Env) (s : IdentityService) (data : List Nat) :
    Response × IdentityService :=
  match env.decodeRequest data with
  | Except.error _ =>
    (response_with_error env none Status.badRequest "invalid Request structure", s)
  | Except.ok req =>
    match handleRequest env s req data with
    | Except.ok (resp, s1) => (resp, s1)
    | Except.error err =>
      (response_with_error env (some req) Status.internalServerError err, s)

/-! Concrete inputs used to exercise the service on closed instances. -/

/-- A concrete service state. -/
def svcW : IdentityService := { ctx := 0, vault := 0, cli_state := 0 }

/-- A concrete environment: the header decoder rejects everything, the
store lookups fail as absent, and the remaining oracles succeed with fixed
values.  Per-scenario variants override individual fields. -/
def baseEnv : Env :=
  { decodeRequest := fun _ => Except.error "bad"
    freshId := 42
    identitiesGet := fun _ _ => Except.error "identity not found"
    exportHistory := fun _ => Except.ok [1, 2]
    createIdentity := fun _ _ => Except.ok 1
    identityIdentifier := fun _ => "Pabc"
    identityExport := fun _ => Except.ok [3, 4]
    importIdentity := fun _ _ _ => Except.ok 2
    vaultsGet := fun _ _ => Except.error "vault not found"
    vaultLoad := fun _ => Except.ok 5
    createSignature := fun _ _ => Except.ok [7]
    importPublicIdentity := fun _ _ => Except.ok 3
    verifySignature := fun _ _ _ _ => Except.ok false
    compare := fun _ _ => IdentityHistoryComparison.equal
    decodeValidate := fun _ => Except.error "decodeV"
    decodeCreateSignature := fun _ => Except.error "decodeCS"
    decodeVerify := fun _ => Except.error "decodeVS"
    decodeCompare := fun _ => Except.error "decodeC" }

/-- A concrete compare request header. -/
def reqCompare : Request :=
  { id := 11, method := some Method.post
    path := "/actions/compare_identity_change_history", has_body := true }

/-- A concrete compare payload with an empty known identity. -/
def argsCompare : CompareIdentityChangeHistoryRequest :=
  { current_identity := [9], known_identity := [] }

/-- Environment whose public-identity import fails. -/
def envCompareFail : Env :=
  { baseEnv with
    decodeRequest := fun _ => Except.ok reqCompare
    decodeCompare := fun _ => Except.ok argsCompare
    importPublicIdentity := fun _ _ => Except.error "cannot import identity" }

/-- Environment whose public-identity import succeeds. -/
def envCompareOk : Env :=
  { baseEnv with
    decodeRequest := fun _ => Except.ok reqCompare
    decodeCompare := fun _ => Except.ok argsCompare }

/-- A concrete validate request header. -/
def reqValidate : Request :=
  { id := 12, method := some Method.post
    path := "/actions/validate_identity_change_history", has_body := true }

/-- Environment that decodes the header to `reqValidate` but fails to
decode the validate payload. -/
def envValidate : Env :=
  { baseEnv with decodeRequest := fun _ => Except.ok reqValidate }

/-- A concrete verify request header. -/
def reqVerify : Request :=
  { id := 7, method := some Method.post
    path := "/actions/verify_signature", has_body := true }

/-- A concrete verify payload. -/
def argsVerify : VerifySignatureRequest :=
  { signer_identity := [1], signature := [2], data := [3] }

/-- Environment for a verify dispatch whose cryptographic check fails. -/
def envVerify : Env :=
  { baseEnv with
    decodeRequest := fun _ => Except.ok reqVerify
    decodeVerify := fun _ => Except.ok argsVerify }

/-- A concrete named-identity lookup request. -/
def reqGetName : Request :=
  { id := 5, method := some Method.get, path := "/alice", has_body := false }

/-- Environment that decodes the header to `reqGetName`; the store lookup
fails as absent. -/
def envGetName : Env :=
  { baseEnv with decodeRequest := fun _ => Except.ok reqGetName }

/-- A concrete create-signature request header. -/
def reqSig : Request :=
  { id := 6, method := some Method.post
    path := "/actions/create_signature", has_body := true }

/-- A concrete create-signature payload naming a vault. -/
def argsSig : CreateSignatureRequest :=
  { identity := [1], data := [2], vault_name := some "v1" }

/-- Environment for a create-signature dispatch whose named vault is
absent. -/
def envSig : Env :=
  { baseEnv with
    decodeRequest := fun _ => Except.ok reqSig
    decodeCreateSignature := fun _ => Except.ok argsSig }

/-- A concrete PUT request. -/
def reqPut : Request :=
  { id := 1, method := some Method.put, path := "/x", has_body := false }

/-- Environment decoding to `reqPut`. -/
def envPut : Env := { baseEnv with decodeRequest := fun _ => Except.ok reqPut }

/-- A concrete GET request with a two-segment path. -/
def reqGetDeep : Request :=
  { id := 2, method := some Method.get, path := "/a/b", has_body := false }

/-- Environment decoding to `reqGetDeep`. -/
def envGetDeep : Env := { baseEnv with decodeRequest := fun _ => Except.ok reqGetDeep }

/-- A concrete POST request with an unrecognized path. -/
def reqPostUnknown : Request :=
  { id := 3, method := some Method.post, path := "/a/b", has_body := false }

/-- Environment decoding to `reqPostUnknown`. -/
def envPostUnknown : Env :=
  { baseEnv with decodeRequest := fun _ => Except.ok reqPostUnknown }

/-- A concrete request carrying no method. -/
def reqNoMethod : Request :=
  { id := 4, method := none, path := "/x", has_body := false }

/-- Environment decoding to `reqNoMethod`. -/
def envNoMethod : Env :=
  { baseEnv with decodeRequest := fun _ => Except.ok reqNoMethod }

/-- A concrete action request with no body. -/
def reqNoBody : Request :=
  { id := 8, method := some Method.post
    path := "/actions/create_signature", has_body := false }

/-- Environment decoding to `reqNoBody`. -/
def envNoBody : Env :=
  { baseEnv with decodeRequest := fun _ => Except.ok reqNoBody }

/-- A concrete GET request for the root path. -/
def reqRootGet : Request :=
  { id := 9, method := some Method.get, path := "/", has_body := false }

/-- A concrete POST request for the root path. -/
def reqRootPost : Request :=
  { id := 10, method := some Method.post, path := "/", has_body := false }

/-! Shared inversion lemmas. -/

/-- Every response `handle_request` itself writes keeps the request's id
and has status Ok or BadRequest, and the service state is returned
unchanged. -/
theorem handleRequest_ok_inv (env : Env) (s : IdentityService) (req : Request)
    (data : List Nat) (r : Response) (s1 : IdentityService)
    (h : handleRequest env s req data = Except.ok (r, s1)) :
    s1 = s ∧ r.id = req.id ∧ (r.status = Status.ok ∨ r.status = Status.badRequest) := by
  unfold handleRequest getNamedIdentityResult createIdentityResult at h
  repeat' split at h
  all_goals simp_all [ok_response, response_for_bad_request]
  all_goals (rcases h with ⟨h1, h2⟩; subst h1; simp)

/-- Unfolding equation of `on_request` when the header fails to decode. -/
theorem onRequest_decode_error (env : Env) (s : IdentityService) (data : List Nat)
    (e : String) (hd : env.decodeRequest data = Except.error e) :
    onRequest env s data =
      (response_with_error env none Status.badRequest "invalid Request structure", s) := by
  unfold onRequest
  rw [hd]

/-- Unfolding equation of `on_request` when the header decodes. -/
theorem onRequest_decode_ok (env : Env) (s : IdentityService) (data : List Nat)
    (req : Request) (hd : env.decodeRequest data = Except.ok req) :
    onRequest env s data =
      match handleRequest env s req data with
      | Except.ok (resp, s1) => (resp, s1)
      | Except.error err =>
        (response_with_error env (some req) Status.internalServerError err, s) := by
  unfold onRequest
  rw [hd]

/-- Top-level inversion for `on_request`: the state is preserved, the
status is one of Ok, BadRequest, InternalServerError, and the response id
is the request's when the header decoded and the fresh id otherwise. -/
theorem onRequest_inv (env : Env) (s : IdentityService) (data : List Nat) :
    (onRequest env s data).2 = s ∧
    ((onRequest env s data).1.status = Status.ok ∨
      (onRequest env s data).1.status = Status.badRequest ∨
      (onRequest env s data).1.status = Status.internalServerError) ∧
    (∀ req, env.decodeRequest data = Except.ok req →
      (onRequest env s data).1.id = req.id) ∧
    (∀ e, env.decodeRequest data = Except.error e →
      (onRequest env s data).1.id = env.freshId) := by
  cases hd : env.decodeRequest data with
  | error e =>
    rw [onRequest_decode_error env s data e hd]
    refine ⟨rfl, Or.inr (Or.inl rfl), ?_, ?_⟩
    · intro req hreq; exact absurd hreq (by simp)
    · intro e1 _; rfl
  | ok req =>
    cases hh : handleRequest env s req data with
    | error err =>
      rw [onRequest_decode_ok env s data req hd, hh]
      refine ⟨rfl, Or.inr (Or.inr rfl), ?_, ?_⟩
      · intro req1 hreq
        have hr : req = req1 := by injection hreq
        subst hr; rfl
      · intro e1 he; exact absurd he (by simp)
    | ok pr =>
      obtain ⟨resp, s1⟩ := pr
      obtain ⟨hs, hid, hst⟩ := handleRequest_ok_inv env s req data resp s1 hh
      rw [onRequest_decode_ok env s data req hd, hh]
      refine ⟨hs, ?_, ?_, ?_⟩
      · rcases hst with h1 | h1
        · exact Or.inl h1
        · exact Or.inr (Or.inl h1)
      · intro req1 hreq
        have hr : req = req1 := by injection hreq
        subst hr; exact hid
      · intro e1 he; exact absurd he (by simp)

/-! Claims. -/

/-- Claim C1 (amended): a dispatched compare-change-history request whose
known_identity field is empty is answered Ok with comparison Newer,
provided the current_identity bytes import successfully as a
PublicIdentity; the import happens before the emptiness test, so a
failing import yields InternalServerError instead. -/
theorem compare_empty_known_newer (env : Env) (s : IdentityService) (data : List Nat)
    (req : Request) (args : CompareIdentityChangeHistoryRequest) (pid : Nat)
    (hd : env.decodeRequest data = Except.ok req)
    (hm : req.method = some Method.post)
    (hp : pathSegments req.path = ["actions", "compare_identity_change_history"])
    (hb : req.has_body = true)
    (ha : env.decodeCompare data = Except.ok args)
    (hk : args.known_identity = [])
    (hc : env.importPublicIdentity args.current_identity s.vault = Except.ok pid) :
    (onRequest env s data).1 =
      { id := req.id, status := Status.ok
        body := ResponseBody.comparison IdentityHistoryComparison.newer } := by
  have hh : handleRequest env s req data =
      Except.ok (ok_response req
        (ResponseBody.comparison IdentityHistoryComparison.newer), s) := by
    simp [handleRequest, hm, hp, hb, ha, hc, hk]
  rw [onRequest_decode_ok env s data req hd, hh]
  rfl

/-- Witness for the amended claim C1 at a concrete input. -/
theorem compare_empty_known_newer_witness :
    (onRequest envCompareOk svcW [0]).1 =
      { id := 11, status := Status.ok
        body := ResponseBody.comparison IdentityHistoryComparison.newer } :=
  compare_empty_known_newer envCompareOk svcW [0] reqCompare argsCompare 3
    rfl rfl (by decide) rfl rfl rfl rfl

/-- Counterexample to claim C1 as stated: with known_identity empty but
current_identity bytes that fail to import, the dispatched compare request
is answered InternalServerError, not Ok with Newer. -/
theorem compare_empty_known_newer_counterexample :
    envCompareFail.decodeRequest [0] = Except.ok reqCompare ∧
    reqCompare.method = some Method.post ∧
    pathSegments reqCompare.path = ["actions", "compare_identity_change_history"] ∧
    reqCompare.has_body = true ∧
    envCompareFail.decodeCompare [0] = Except.ok argsCompare ∧
    argsCompare.known_identity = [] ∧
    (onRequest envCompareFail svcW [0]).1.status = Status.internalServerError ∧
    (onRequest envCompareFail svcW [0]).1 ≠
      { id := reqCompare.id, status := Status.ok
        body := ResponseBody.comparison IdentityHistoryComparison.newer } :=
  ⟨rfl, rfl, by decide, rfl, rfl, rfl, by decide, by decide⟩

/-- Claim C2: for every input byte buffer, `on_request` produces exactly one
response value, whose status is Ok, BadRequest, or InternalServerError; no
other status is ever emitted and no request terminates the actor (the
dispatch is a total function into `Response`). -/
theorem onRequest_status_one_of_three (env : Env) (s : IdentityService) (data : List Nat) :
    (onRequest env s data).1.status = Status.ok ∨
    (onRequest env s data).1.status = Status.badRequest ∨
    (onRequest env s data).1.status = Status.internalServerError :=
  (onRequest_inv env s data).2.1

/-- Claim C3: for every byte buffer whose header fails to decode,
`on_request` returns a BadRequest error response with an empty path and the
freshly generated id, never an id recovered from the malformed bytes. -/
theorem malformed_header_bad_request_fresh_id (env : Env) (s : IdentityService)
    (data : List Nat) (e : String) (hd : env.decodeRequest data = Except.error e) :
    (onRequest env s data).1 =
      { id := env.freshId, status := Status.badRequest
        body := ResponseBody.error
          { path := "", method := none, message := "invalid Request structure" } } := by
  rw [onRequest_decode_error env s data e hd]
  rfl

/-- Witness for claim C3 at a concrete input. -/
theorem malformed_header_bad_request_fresh_id_witness :
    (onRequest baseEnv svcW []).1 =
      { id := 42, status := Status.badRequest
        body := ResponseBody.error
          { path := "", method := none, message := "invalid Request structure" } } :=
  malformed_header_bad_request_fresh_id baseEnv svcW [] "bad" rfl

/-- Claim C4: whenever the header decodes but the dispatch itself errors
(for example a per-operation payload fails to decode), the response has
status InternalServerError, carries the underlying error's textual
description, and keeps the decoded request's id and path. -/
theorem dispatch_error_internal_server_error (env : Env) (s : IdentityService)
    (data : List Nat) (req : Request) (msg : String)
    (hd : env.decodeRequest data = Except.ok req)
    (hh : handleRequest env s req data = Except.error msg) :
    (onRequest env s data).1 =
      { id := req.id, status := Status.internalServerError
        body := ResponseBody.error { path := req.path, method := none, message := msg } } := by
  rw [onRequest_decode_ok env s data req hd, hh]
  rfl

/-- Witness for claim C4: a payload decode failure at a concrete input. -/
theorem dispatch_error_internal_server_error_witness :
    (onRequest envValidate svcW []).1 =
      { id := 12, status := Status.internalServerError
        body := ResponseBody.error
          { path := "/actions/validate_identity_change_history", method := none
            message := "decodeV" } } :=
  dispatch_error_internal_server_error envValidate svcW [] reqValidate "decodeV" rfl rfl

/-- Claim C5: a verify-signature request whose signer identity imports and
whose verification computation completes with a failed cryptographic check
is answered Ok with verified false, never an error-status response. -/
theorem verify_false_is_ok_response (env : Env) (s : IdentityService) (data : List Nat)
    (req : Request) (args : VerifySignatureRequest) (pid : Nat)
    (hd : env.decodeRequest data = Except.ok req)
    (hm : req.method = some Method.post)
    (hp : pathSegments req.path = ["actions", "verify_signature"])
    (hb : req.has_body = true)
    (ha : env.decodeVerify data = Except.ok args)
    (hi : env.importPublicIdentity args.signer_identity s.vault = Except.ok pid)
    (hv : env.verifySignature pid args.signature args.data s.vault = Except.ok false) :
    (onRequest env s data).1 =
      { id := req.id, status := Status.ok, body := ResponseBody.verify false } := by
  have hh : handleRequest env s req data =
      Except.ok (ok_response req (ResponseBody.verify false), s) := by
    simp [handleRequest, hm, hp, hb, ha, hi, hv]
  rw [onRequest_decode_ok env s data req hd, hh]
  rfl

/-- Witness for claim C5 at a concrete input. -/
theorem verify_false_is_ok_response_witness :
    (onRequest envVerify svcW []).1 =
      { id := 7, status := Status.ok, body := ResponseBody.verify false } :=
  verify_false_is_ok_response envVerify svcW [] reqVerify argsVerify 3
    rfl rfl (by decide) rfl rfl rfl rfl

/-- Claim C6: a named identity absent on GET, or a named vault absent in
create_signature, surfaces as InternalServerError carrying the not-found
message; no response ever has the NotFound status. -/
theorem not_found_surfaced_as_internal :
    (∀ env s data req identity_name msg,
      env.decodeRequest data = Except.ok req →
      req.method = some Method.get →
      pathSegments req.path = [identity_name] →
      env.identitiesGet s.cli_state identity_name = Except.error msg →
      (onRequest env s data).1 =
        { id := req.id, status := Status.internalServerError
          body := ResponseBody.error { path := req.path, method := none, message := msg } }) ∧
    (∀ env s data req args vault_name msg,
      env.decodeRequest data = Except.ok req →
      req.method = some Method.post →
      pathSegments req.path = ["actions", "create_signature"] →
      req.has_body = true →
      env.decodeCreateSignature data = Except.ok args →
      args.vault_name = some vault_name →
      env.vaultsGet s.cli_state vault_name = Except.error msg →
      (onRequest env s data).1 =
        { id := req.id, status := Status.internalServerError
          body := ResponseBody.error { path := req.path, method := none, message := msg } }) ∧
    (∀ env s data, (onRequest env s data).1.status ≠ Status.notFound) := by
  refine ⟨?_, ?_, ?_⟩
  · intro env s data req identity_name msg hd hm hp hg
    have hh : handleRequest env s req data = Except.error msg := by
      simp [handleRequest, getNamedIdentityResult, hm, hp, hg]
    rw [onRequest_decode_ok env s data req hd, hh]
    rfl
  · intro env s data req args vault_name msg hd hm hp hb ha hv hg
    have hh : handleRequest env s req data = Except.error msg := by
      simp [handleRequest, importForSignature, hm, hp, hb, ha, hv, hg]
    rw [onRequest_decode_ok env s data req hd, hh]
    rfl
  · intro env s data
    rcases (onRequest_inv env s data).2.1 with h | h | h <;> simp [h]

/-- Witness for claim C6: an absent identity name and an absent named
vault, both at concrete inputs. -/
theorem not_found_surfaced_as_internal_witness :
    (onRequest envGetName svcW []).1 =
      { id := 5, status := Status.internalServerError
        body := ResponseBody.error
          { path := "/alice", method := none, message := "identity not found" } } ∧
    (onRequest envSig svcW []).1 =
      { id := 6, status := Status.internalServerError
        body := ResponseBody.error
          { path := "/actions/create_signature", method := none
            message := "vault not found" } } :=
  ⟨not_found_surfaced_as_internal.1 envGetName svcW [] reqGetName "alice"
      "identity not found" rfl rfl (by decide) rfl,
   not_found_surfaced_as_internal.2.1 envSig svcW [] reqSig argsSig "v1"
      "vault not found" rfl rfl (by decide) rfl rfl rfl rfl⟩

/-- Claim C7: PUT, PATCH or DELETE is answered BadRequest "unknown method";
an unmatched path is answered BadRequest "unknown path"; a missing method
is answered BadRequest "empty method"; each of the four action endpoints
with no body is answered BadRequest "empty body". -/
theorem bad_request_literal_messages :
    (∀ env s data req m,
      env.decodeRequest data = Except.ok req →
      req.method = some m →
      (m = Method.put ∨ m = Method.patch ∨ m = Method.delete) →
      (onRequest env s data).1 = response_for_bad_request req "unknown method") ∧
    (∀ env s data req,
      env.decodeRequest data = Except.ok req →
      req.method = some Method.get →
      (∀ x, pathSegments req.path ≠ [x]) →
      (onRequest env s data).1 = response_for_bad_request req "unknown path") ∧
    (∀ env s data req,
      env.decodeRequest data = Except.ok req →
      req.method = some Method.post →
      pathSegments req.path ≠ [""] →
      pathSegments req.path ≠ ["actions", "validate_identity_change_history"] →
      pathSegments req.path ≠ ["actions", "create_signature"] →
      pathSegments req.path ≠ ["actions", "verify_signature"] →
      pathSegments req.path ≠ ["actions", "compare_identity_change_history"] →
      (onRequest env s data).1 = response_for_bad_request req "unknown path") ∧
    (∀ env s data req,
      env.decodeRequest data = Except.ok req →
      req.method = none →
      (onRequest env s data).1 = response_for_bad_request req "empty method") ∧
    (∀ env s data req,
      env.decodeRequest data = Except.ok req →
      req.method = some Method.post →
      (pathSegments req.path = ["actions", "validate_identity_change_history"] ∨
        pathSegments req.path = ["actions", "create_signature"] ∨
        pathSegments req.path = ["actions", "verify_signature"] ∨
        pathSegments req.path = ["actions", "compare_identity_change_history"]) →
      req.has_body = false →
      (onRequest env s data).1 = response_for_bad_request req "empty body") := by
  refine ⟨?_, ?_, ?_, ?_, ?_⟩
  · intro env s data req m hd hm hm3
    have hh : handleRequest env s req data =
        Except.ok (response_for_bad_request req "unknown method", s) := by
      rcases hm3 with h1 | h1 | h1 <;> subst h1 <;> simp [handleRequest, hm]
    rw [onRequest_decode_ok env s data req hd, hh]
  · intro env s data req hd hm hone
    have hh : handleRequest env s req data =
        Except.ok (response_for_bad_request req "unknown path", s) := by
      unfold handleRequest
      simp only [hm]
    rw [onRequest_decode_ok env s data req hd, hh]
  · intro env s data req hd hm h1 h2 h3 h4 h5
    have hh : handleRequest env s req data =
        Except.ok (response_for_bad_request req "unknown path", s) := by
      unfold handleRequest
      simp only [hm]
    rw [onRequest_decode_ok env s data req hd, hh]
  · intro env s data req hd hm
    have hh : handleRequest env s req data =
        Except.ok (response_for_bad_request req "empty method", s) := by
      simp [handleRequest, hm]
    rw [onRequest_decode_ok env s data req hd, hh]
  · intro env s data req hd hm hp4 hb
    have hh : handleRequest env s req data =
        Except.ok (response_for_bad_request req "empty body", s) := by
      rcases hp4 with hp | hp | hp | hp <;> simp [handleRequest, hm, hp, hb]
    rw [onRequest_decode_ok env s data req hd, hh]

/-- Witness for claim C7: one concrete instance per message. -/
theorem bad_request_literal_messages_witness :
    (onRequest envPut svcW []).1 = response_for_bad_request reqPut "unknown method" ∧
    (onRequest envGetDeep svcW []).1 = response_for_bad_request reqGetDeep "unknown path" ∧
    (onRequest envPostUnknown svcW []).1 =
      response_for_bad_request reqPostUnknown "unknown path" ∧
    (onRequest envNoMethod svcW []).1 = response_for_bad_request reqNoMethod "empty method" ∧
    (onRequest envNoBody svcW []).1 = response_for_bad_request reqNoBody "empty body" :=
  ⟨bad_request_literal_messages.1 envPut svcW [] reqPut Method.put rfl rfl (Or.inl rfl),
   bad_request_literal_messages.2.1 envGetDeep svcW [] reqGetDeep rfl rfl
     (by
       have h2 : pathSegments reqGetDeep.path = ["a", "b"] := by decide
       intro x
       rw [h2]
       simp),
   bad_request_literal_messages.2.2.1 envPostUnknown svcW [] reqPostUnknown rfl rfl
     (by decide) (by decide) (by decide) (by decide) (by decide),
   bad_request_literal_messages.2.2.2.1 envNoMethod svcW [] reqNoMethod rfl rfl,
   bad_request_literal_messages.2.2.2.2 envNoBody svcW [] reqNoBody rfl rfl
     (Or.inr (Or.inl (by decide))) rfl⟩

/-- Claim C8: the service fields (context, vault handle, CLI state store
reference) are never mutated by a dispatch: after `on_request` they equal
the fields before. -/
theorem dispatch_preserves_service_state (env : Env) (s : IdentityService) (data : List Nat) :
    (onRequest env s data).2 = s :=
  (onRequest_inv env s data).1

/-- Claim C9: a fresh id is used only when the header fails to decode; when
the header decodes, every response carries exactly the inbound request's
id. -/
theorem response_id_matches_request :
    (∀ env s data req, env.decodeRequest data = Except.ok req →
      (onRequest env s data).1.id = req.id) ∧
    (∀ env s data e, env.decodeRequest data = Except.error e →
      (onRequest env s data).1.id = env.freshId) :=
  ⟨fun env s data req hd => (onRequest_inv env s data).2.2.1 req hd,
   fun env s data e hd => (onRequest_inv env s data).2.2.2 e hd⟩

/-- Witness for claim C9: a decoded request keeps its id, a malformed one
gets the fresh id. -/
theorem response_id_matches_request_witness :
    (onRequest envVerify svcW []).1.id = 7 ∧ (onRequest baseEnv svcW []).1.id = 42 :=
  ⟨response_id_matches_request.1 envVerify svcW [] reqVerify rfl,
   response_id_matches_request.2 baseEnv svcW [] "bad" rfl⟩

/-- Claim C10: the root path splits into the single empty segment, so a GET
for "/" dispatches to the named-identity lookup arm with the empty string
as the name (failing only through the store lookup), while a POST for "/"
dispatches to identity creation. -/
theorem root_path_dispatch :
    pathSegments "/" = [""] ∧
    (∀ env s req data, req.method = some Method.get → req.path = "/" →
      handleRequest env s req data = getNamedIdentityResult env s req "") ∧
    (∀ env s req data, req.method = some Method.post → req.path = "/" →
      handleRequest env s req data = createIdentityResult env s req) := by
  have hseg : pathSegments "/" = [""] := by decide
  refine ⟨hseg, ?_, ?_⟩
  · intro env s req data hm hp
    simp [handleRequest, hm, hp, hseg]
  · intro env s req data hm hp
    simp [handleRequest, hm, hp, hseg]

/-- Witness for claim C10 at concrete root-path requests. -/
theorem root_path_dispatch_witness :
    handleRequest baseEnv svcW reqRootGet [] =
      getNamedIdentityResult baseEnv svcW reqRootGet "" ∧
    handleRequest baseEnv svcW reqRootPost [] = createIdentityResult baseEnv svcW reqRootPost :=
  ⟨root_path_dispatch.2.1 baseEnv svcW reqRootGet [] rfl rfl,
   root_path_dispatch.2.2 baseEnv svcW reqRootPost [] rfl rfl⟩

end OckamIdentity
